import Mathlib

/-!
Shallow embedding of `src/bear/monitor_resources.py` (the resource-sampling
core: `ResourceMonitor` and `run_with_monitoring`).

Numeric values (Python floats) are modelled as rationals `ℚ`; Python dicts
with optional keys become structures with `Option` fields; code that can
raise is modelled with `Except`/`Option`.  The background monitoring thread
is modelled by an explicit state machine: the environment supplies the
sequence of per-tick measurement inputs that occur while the flag
`monitoring` is set.
-/

/-- What `GPUtil.getGPUs()` reports for one device (raw collaborator data,
before the loop reshapes it into a dict). -/
structure GPUStats where
  id : Nat
  name : String
  memoryUsed : ℚ
  memoryTotal : ℚ
  memoryUtil : ℚ
  load : ℚ
  temperature : ℚ
  deriving DecidableEq, Repr

/-- The per-GPU dict built inside `_monitor_loop` (lines 68-76). -/
structure GPUData where
  id : Nat
  name : String
  memory_used_mb : ℚ
  memory_total_mb : ℚ
  memory_percent : ℚ
  gpu_percent : ℚ
  temperature : ℚ
  deriving DecidableEq, Repr

/-- `psutil.virtual_memory()` fields used by the loop; `used` and
`available` are in bytes. -/
structure MemStats where
  percent : ℚ
  used : ℚ
  available : ℚ
  deriving DecidableEq, Repr

/-- The `data_point` dict appended each tick (lines 54-81).  `gpus` is
present only when GPU support is available and the query succeeded;
`gpu_error` only when the query raised. -/
structure DataPoint where
  timestamp : ℚ
  cpu_percent : ℚ
  memory_percent : ℚ
  memory_used_gb : ℚ
  memory_available_gb : ℚ
  gpus : Option (List GPUData)
  gpu_error : Option String
  deriving DecidableEq, Repr

/-- Reshape one `GPUtil` device record into the dict of lines 68-76. -/
def mkGPUData (g : GPUStats) : GPUData :=
  { id := g.id
    name := g.name
    memory_used_mb := g.memoryUsed
    memory_total_mb := g.memoryTotal
    memory_percent := g.memoryUtil * 100
    gpu_percent := g.load * 100
    temperature := g.temperature }

/-- One iteration of the body of `_monitor_loop` (lines 47-81): build the
`data_point` from the measurements of this tick.  `gpuQuery` is the outcome
of `GPUtil.getGPUs()` (`.error` models a raised exception, recorded as
`str(e)`); it is consulted only when `gpuAvailable` is set. -/
def monitorTick (gpuAvailable : Bool) (timestamp cpu : ℚ) (mem : MemStats)
    (gpuQuery : Except String (List GPUStats)) : DataPoint :=
  let base : DataPoint :=
    { timestamp := timestamp
      cpu_percent := cpu
      memory_percent := mem.percent
      memory_used_gb := mem.used / 1024 ^ 3
      memory_available_gb := mem.available / 1024 ^ 3
      gpus := none
      gpu_error := none }
  if gpuAvailable then
    match gpuQuery with
    | .ok gpus => { base with gpus := some (gpus.map mkGPUData) }
    | .error e => { base with gpu_error := some e }
  else base

/-- Environment input for one sampling tick: the measurements the system
collaborators would return at that instant. -/
structure TickInput where
  timestamp : ℚ
  cpu : ℚ
  mem : MemStats
  gpuQuery : Except String (List GPUStats)
  deriving Repr

/-- State of a `ResourceMonitor` object.  `monitor_thread` holds the id of
the most recently spawned sampling thread (the attribute is overwritten on
each `start_monitoring`); `threadsSpawned` counts every sampling thread ever
spawned by this object, so that spawning an extra concurrent context is
observable in the model. -/
structure ResourceMonitor where
  interval : ℚ
  monitoring : Bool
  data : List DataPoint
  monitor_thread : Option Nat
  threadsSpawned : Nat
  deriving DecidableEq, Repr

/-- `ResourceMonitor.__init__` (lines 27-30). -/
def ResourceMonitor.init (interval : ℚ) : ResourceMonitor :=
  { interval := interval
    monitoring := false
    data := []
    monitor_thread := none
    threadsSpawned := 0 }

/-- `start_monitoring` (lines 32-36): set the flag and spawn a new thread,
unconditionally; the `monitor_thread` attribute is overwritten with the new
thread's handle. -/
def ResourceMonitor.start_monitoring (m : ResourceMonitor) : ResourceMonitor :=
  { m with
    monitoring := true
    monitor_thread := some m.threadsSpawned
    threadsSpawned := m.threadsSpawned + 1 }

/-- The sampling loop `_monitor_loop` (lines 45-82) as observed between a
start and the following stop: while `monitoring` is set, each tick appends
one `data_point` to `self.data`; if `monitoring` is clear the loop body
never runs.  `inputs` is the sequence of ticks the environment delivers
before the stop signal is observed. -/
def ResourceMonitor.runLoop (gpuAvailable : Bool) (m : ResourceMonitor)
    (inputs : List TickInput) : ResourceMonitor :=
  if m.monitoring then
    { m with data := m.data ++ inputs.map (fun i =>
        monitorTick gpuAvailable i.timestamp i.cpu i.mem i.gpuQuery) }
  else m

/-- `stop_monitoring` (lines 38-43): clear the flag, join the thread if one
was ever spawned, and return `self.data` — the very list the object still
holds; it is neither copied nor cleared. -/
def ResourceMonitor.stop_monitoring (m : ResourceMonitor) :
    ResourceMonitor × List DataPoint :=
  let m' := { m with monitoring := false }
  (m', m'.data)

/-- One full start / sample / stop cycle of a monitor. -/
def ResourceMonitor.cycle (gpuAvailable : Bool) (m : ResourceMonitor)
    (inputs : List TickInput) : ResourceMonitor × List DataPoint :=
  ResourceMonitor.stop_monitoring
    (ResourceMonitor.runLoop gpuAvailable m.start_monitoring inputs)

/-- Python `max` over a list: raises (`none`) on an empty list, otherwise the
left fold of binary `max` over the elements. -/
def pymax (xs : List ℚ) : Option ℚ :=
  match xs with
  | [] => none
  | x :: rest => some (rest.foldl max x)

/-- Python `sum(xs) / len(xs)`: a `ZeroDivisionError` (`none`) on an empty
list, otherwise the exact mean. -/
def pyavg (xs : List ℚ) : Option ℚ :=
  match xs with
  | [] => none
  | _ => some (xs.sum / xs.length)

/-- The `analysis` dict of `run_with_monitoring` (lines 117-147); each key
that the code may leave out is an `Option` field. -/
structure Analysis where
  max_cpu_percent : Option ℚ
  avg_cpu_percent : Option ℚ
  max_memory_gb : Option ℚ
  avg_memory_gb : Option ℚ
  max_gpu_memory_mb : Option ℚ
  avg_gpu_memory_mb : Option ℚ
  max_gpu_utilization : Option ℚ
  avg_gpu_utilization : Option ℚ
  deriving DecidableEq, Repr

/-- The empty `analysis = {}` dict (line 147). -/
def Analysis.empty : Analysis :=
  { max_cpu_percent := none
    avg_cpu_percent := none
    max_memory_gb := none
    avg_memory_gb := none
    max_gpu_memory_mb := none
    avg_gpu_memory_mb := none
    max_gpu_utilization := none
    avg_gpu_utilization := none }

/-- The flattened list that lines 133-137 collect from every data point
that has a `gpus` key, projected through `f`. -/
def gatherGpu (f : GPUData → ℚ) (resource_data : List DataPoint) : List ℚ :=
  resource_data.foldl (fun acc d =>
    match d.gpus with
    | some gs => acc ++ gs.map f
    | none => acc) []

/-- The timeline reduction of `run_with_monitoring` (lines 117-147).
Returns `none` exactly when one of the Python aggregate calls would raise
(max of empty sequence / division by zero); the theorems below show the
source's guards make that impossible. -/
def analyze (gpuAvailable : Bool) (resource_data : List DataPoint) :
    Option Analysis :=
  match resource_data with
  | [] => some Analysis.empty
  | _ => do
    let cpu_usage := resource_data.map (fun d => d.cpu_percent)
    let memory_usage := resource_data.map (fun d => d.memory_used_gb)
    let mc ← pymax cpu_usage
    let ac ← pyavg cpu_usage
    let mm ← pymax memory_usage
    let am ← pyavg memory_usage
    let base : Analysis :=
      { Analysis.empty with
        max_cpu_percent := some mc
        avg_cpu_percent := some ac
        max_memory_gb := some mm
        avg_memory_gb := some am }
    if gpuAvailable && resource_data.any (fun d => d.gpus.isSome) then
      let gpu_memory_usage := gatherGpu (fun g => g.memory_used_mb) resource_data
      let gpu_utilization := gatherGpu (fun g => g.gpu_percent) resource_data
      match gpu_memory_usage with
      | [] => some base
      | _ => do
        let mg ← pymax gpu_memory_usage
        let ag ← pyavg gpu_memory_usage
        let mu ← pymax gpu_utilization
        let au ← pyavg gpu_utilization
        some { base with
          max_gpu_memory_mb := some mg
          avg_gpu_memory_mb := some ag
          max_gpu_utilization := some mu
          avg_gpu_utilization := some au }
    else
      some base

/-- The fields of a completed `subprocess.run` result that the code reads
(also the shape of the stand-in object built on launch failure). -/
structure ProcResult where
  returncode : Int
  stdout : String
  stderr : String
  deriving DecidableEq, Repr

/-- The dict returned by `run_with_monitoring` (lines 149-157). -/
structure RunResult where
  success : Bool
  execution_time : ℚ
  return_code : Int
  stdout : String
  stderr : String
  resource_analysis : Analysis
  resource_timeline : List DataPoint
  deriving DecidableEq, Repr

/-- `run_with_monitoring` (lines 85-157).  The environment supplies: the
outcome of `subprocess.run` (`.error e` models an exception raised at
launch, with `e = str(exc)`), the two `time.time()` readings, and the
sampling ticks that fire while the child runs.  The result is `none` only
if the reduction would raise; the theorems below show it never does. -/
def run_with_monitoring (gpuAvailable : Bool) (monitor_interval : ℚ)
    (launch : Except String ProcResult) (start_time end_time : ℚ)
    (ticks : List TickInput) : Option RunResult :=
  let monitor := ResourceMonitor.init monitor_interval
  let monitor := monitor.start_monitoring
  let (success, result) :=
    match launch with
    | .ok r => (r.returncode == 0, r)
    | .error e => (false, { returncode := -1, stdout := "", stderr := e })
  let monitor := monitor.runLoop gpuAvailable ticks
  let (_, resource_data) := monitor.stop_monitoring
  let execution_time := end_time - start_time
  (analyze gpuAvailable resource_data).map (fun analysis =>
    { success := success
      execution_time := execution_time
      return_code := result.returncode
      stdout := result.stdout
      stderr := result.stderr
      resource_analysis := analysis
      resource_timeline := resource_data })

/-- The timeline that a monitor started just before `ticks` fire and
stopped just after accumulates (derived form, used to phrase run-level
statements). -/
def runTimeline (g : Bool) (ticks : List TickInput) : List DataPoint :=
  ticks.map (fun t => monitorTick g t.timestamp t.cpu t.mem t.gpuQuery)

/-! ### Concrete fixtures for counterexamples and witnesses -/

/-- A virtual-memory reading: 1 GiB used, 2 GiB available. -/
def memA : MemStats := { percent := 40, used := 1024 ^ 3, available := 2 * 1024 ^ 3 }

/-- A tick at time 1 whose GPU query raises. -/
def tickA : TickInput := { timestamp := 1, cpu := 50, mem := memA, gpuQuery := .error "nvml" }

/-- A tick at time 2 whose GPU query raises. -/
def tickB : TickInput := { timestamp := 2, cpu := 70, mem := memA, gpuQuery := .error "nvml" }

/-- A data point whose GPU list is present but empty (GPU support loaded,
zero devices detected at that tick). -/
def dpGpuEmpty : DataPoint :=
  { timestamp := 3
    cpu_percent := 10
    memory_percent := 20
    memory_used_gb := 1
    memory_available_gb := 2
    gpus := some []
    gpu_error := none }

/-! ### Support lemmas -/

theorem gatherGpu_go_acc (f : GPUData → ℚ) (rd : List DataPoint)
    (acc : List ℚ) :
    rd.foldl (fun acc d =>
        match d.gpus with
        | some gs => acc ++ gs.map f
        | none => acc) acc
      = acc ++ gatherGpu f rd := by
  induction rd generalizing acc with
  | nil => simp [gatherGpu]
  | cons d tl ih =>
    unfold gatherGpu
    simp only [List.foldl_cons]
    cases d.gpus with
    | none => rw [ih, ih (([] : List ℚ))]; simp
    | some gs =>
      rw [ih, ih (([] : List ℚ) ++ gs.map f)]
      simp [List.append_assoc]

theorem gatherGpu_cons (f : GPUData → ℚ) (d : DataPoint)
    (tl : List DataPoint) :
    gatherGpu f (d :: tl)
      = (match d.gpus with
          | some gs => gs.map f
          | none => []) ++ gatherGpu f tl := by
  unfold gatherGpu
  simp only [List.foldl_cons]
  cases d.gpus with
  | none => simp [gatherGpu_go_acc]
  | some gs => simpa using gatherGpu_go_acc f tl (gs.map f)

theorem gatherGpu_length (f g : GPUData → ℚ) (rd : List DataPoint) :
    (gatherGpu f rd).length = (gatherGpu g rd).length := by
  induction rd with
  | nil => rfl
  | cons d tl ih =>
    rw [gatherGpu_cons, gatherGpu_cons]
    cases d.gpus <;> simp [ih]

/-- On a non-empty timeline the reduction succeeds and the four CPU/memory
aggregates are exactly the Python `max` and mean of the projected lists. -/
theorem analyze_nonempty (g : Bool) (d : DataPoint) (tl : List DataPoint) :
    ∃ a, analyze g (d :: tl) = some a ∧
      a.max_cpu_percent = pymax ((d :: tl).map (fun x => x.cpu_percent)) ∧
      a.avg_cpu_percent = pyavg ((d :: tl).map (fun x => x.cpu_percent)) ∧
      a.max_memory_gb = pymax ((d :: tl).map (fun x => x.memory_used_gb)) ∧
      a.avg_memory_gb = pyavg ((d :: tl).map (fun x => x.memory_used_gb)) := by
  unfold analyze
  simp only [List.map_cons, pymax, pyavg, Option.some_bind]
  split
  · rename_i hcond
    cases hmem : gatherGpu (fun x => x.memory_used_mb) (d :: tl) with
    | nil => exact ⟨_, rfl, rfl, rfl, rfl, rfl⟩
    | cons y ys =>
      cases hutil : gatherGpu (fun x => x.gpu_percent) (d :: tl) with
      | nil =>
        have := gatherGpu_length (fun x => x.memory_used_mb)
          (fun x => x.gpu_percent) (d :: tl)
        rw [hmem, hutil] at this
        simp at this
      | cons z zs =>
        simp only [pymax, pyavg, Option.some_bind]
        exact ⟨_, rfl, rfl, rfl, rfl, rfl⟩
  · exact ⟨_, rfl, rfl, rfl, rfl, rfl⟩

/-- The reduction never raises: `analyze` is total on every timeline. -/
theorem analyze_isSome (g : Bool) (rd : List DataPoint) :
    (analyze g rd).isSome := by
  cases rd with
  | nil => rfl
  | cons d tl =>
    obtain ⟨a, ha, -⟩ := analyze_nonempty g d tl
    rw [ha]; rfl

theorem foldl_max_mem (x : ℚ) (xs : List ℚ) : xs.foldl max x ∈ x :: xs := by
  induction xs generalizing x with
  | nil => simp
  | cons a l ih =>
    simp only [List.foldl_cons]
    rcases List.mem_cons.mp (ih (max x a)) with h | h
    · rcases max_choice x a with hx | hx
      · rw [h, hx]; exact List.mem_cons_self _ _
      · rw [h, hx]; exact List.mem_cons_of_mem _ (List.mem_cons_self _ _)
    · exact List.mem_cons_of_mem _ (List.mem_cons_of_mem _ h)

theorem le_foldl_max (x : ℚ) (xs : List ℚ) :
    ∀ y ∈ x :: xs, y ≤ xs.foldl max x := by
  induction xs generalizing x with
  | nil => intro y hy; rw [List.mem_singleton] at hy; simp [hy]
  | cons a l ih =>
    intro y hy
    simp only [List.foldl_cons]
    rcases List.mem_cons.mp hy with h | h
    · rw [h]
      exact le_trans (le_max_left x a)
        (ih (max x a) _ (List.mem_cons_self _ _))
    · rcases List.mem_cons.mp h with h2 | h2
      · rw [h2]
        exact le_trans (le_max_right x a)
          (ih (max x a) _ (List.mem_cons_self _ _))
      · exact ih (max x a) y (List.mem_cons_of_mem _ h2)

/-- Closed form of `run_with_monitoring` given the reduction's output. -/
theorem run_with_monitoring_eq (g : Bool) (mi : ℚ)
    (launch : Except String ProcResult) (st et : ℚ) (ticks : List TickInput)
    (a : Analysis) (ha : analyze g (runTimeline g ticks) = some a) :
    run_with_monitoring g mi launch st et ticks = some
      { success := (match launch with
          | .ok r => r.returncode == 0
          | .error _ => false)
        execution_time := et - st
        return_code := (match launch with
          | .ok r => r.returncode
          | .error _ => -1)
        stdout := (match launch with
          | .ok r => r.stdout
          | .error _ => "")
        stderr := (match launch with
          | .ok r => r.stderr
          | .error e => e)
        resource_analysis := a
        resource_timeline := runTimeline g ticks } := by
  cases launch with
  | ok r =>
    simp only [run_with_monitoring, ResourceMonitor.init,
      ResourceMonitor.start_monitoring, ResourceMonitor.runLoop,
      ResourceMonitor.stop_monitoring, if_true, List.nil_append]
    rw [show (ticks.map fun i =>
        monitorTick g i.timestamp i.cpu i.mem i.gpuQuery) = runTimeline g ticks
      from rfl, ha]
    rfl
  | error e =>
    simp only [run_with_monitoring, ResourceMonitor.init,
      ResourceMonitor.start_monitoring, ResourceMonitor.runLoop,
      ResourceMonitor.stop_monitoring, if_true, List.nil_append]
    rw [show (ticks.map fun i =>
        monitorTick g i.timestamp i.cpu i.mem i.gpuQuery) = runTimeline g ticks
      from rfl, ha]
    rfl

/-- With GPU support absent the reduction leaves all four GPU aggregate
keys out of the analysis dict. -/
theorem analyze_false_gpu_none (rd : List DataPoint) :
    ∃ a, analyze false rd = some a ∧
      a.max_gpu_memory_mb = none ∧ a.avg_gpu_memory_mb = none ∧
      a.max_gpu_utilization = none ∧ a.avg_gpu_utilization = none := by
  cases rd with
  | nil => exact ⟨Analysis.empty, rfl, rfl, rfl, rfl, rfl⟩
  | cons d tl =>
    unfold analyze
    simp only [List.map_cons, pymax, pyavg, Option.some_bind, Bool.false_and,
      Bool.false_eq_true, if_false]
    exact ⟨_, rfl, rfl, rfl, rfl, rfl⟩

/-! ### Claim theorems -/

/-- C1 counterexample: after a first start/stop cycle that sampled one tick
(at time 1), a second start/stop cycle sampling one tick (at time 2)
returns a timeline that still contains the first cycle's snapshot —
`stop_monitoring` hands back `self.data` without clearing it, so the
second cycle's timeline is not limited to the second cycle's snapshots. -/
theorem stop_second_cycle_keeps_first_snapshot :
    (ResourceMonitor.cycle false
        (ResourceMonitor.cycle false (ResourceMonitor.init 1) [tickA]).1
        [tickB]).2
      = [monitorTick false 1 50 memA (.error "nvml"),
         monitorTick false 2 70 memA (.error "nvml")] := by
  rfl

/-- C1 amended: `stop_monitoring` leaves the monitor reusable (flag
cleared) but returns the accumulated `data` list by shared reference,
never cleared, so the timeline returned by a second start/stop cycle is
the first cycle's timeline followed by the second cycle's snapshots. -/
theorem stop_returns_accumulated_shared_data (g : Bool) (i : ℚ)
    (ins1 ins2 : List TickInput) :
    ((ResourceMonitor.cycle g (ResourceMonitor.init i) ins1).1).monitoring = false ∧
    (ResourceMonitor.cycle g
        (ResourceMonitor.cycle g (ResourceMonitor.init i) ins1).1 ins2).2
      = (ResourceMonitor.cycle g (ResourceMonitor.init i) ins1).2
        ++ ins2.map (fun t => monitorTick g t.timestamp t.cpu t.mem t.gpuQuery) := by
  constructor
  · rfl
  · simp [ResourceMonitor.cycle, ResourceMonitor.stop_monitoring,
      ResourceMonitor.runLoop, ResourceMonitor.start_monitoring,
      ResourceMonitor.init]

/-- C5 counterexample: calling `start_monitoring` twice on one monitor is
neither a failure nor a no-op — the second call spawns a second sampling
thread (two threads spawned in total, versus one after a single start),
and changes the object's state. -/
theorem double_start_spawns_second_thread :
    ((ResourceMonitor.init 1).start_monitoring.start_monitoring).threadsSpawned = 2 ∧
    ((ResourceMonitor.init 1).start_monitoring).threadsSpawned = 1 ∧
    (ResourceMonitor.init 1).start_monitoring.start_monitoring
      ≠ (ResourceMonitor.init 1).start_monitoring := by
  refine ⟨rfl, rfl, ?_⟩
  intro h
  have := congrArg ResourceMonitor.threadsSpawned h
  simp [ResourceMonitor.init, ResourceMonitor.start_monitoring] at this

/-- C5 amended: every call to `start_monitoring` — including one on a
monitor that is already running — sets the flag, spawns one additional
sampling thread appending to the same `data` list, and overwrites the
stored thread handle with the newest thread's. -/
theorem start_always_spawns_new_thread (m : ResourceMonitor) :
    (m.start_monitoring).monitoring = true ∧
    (m.start_monitoring).threadsSpawned = m.threadsSpawned + 1 ∧
    (m.start_monitoring).monitor_thread = some m.threadsSpawned ∧
    (m.start_monitoring).data = m.data :=
  ⟨rfl, rfl, rfl, rfl⟩

/-- C8: on a monitor that was never started, `stop_monitoring` raises
nothing, returns the empty timeline, and leaves the monitor idle — even if
the sampling loop were entered, its `monitoring` check (false) makes it
exit without appending anything. -/
theorem stop_without_start_is_noop (g : Bool) (i : ℚ) (ticks : List TickInput) :
    (((ResourceMonitor.init i).runLoop g ticks).stop_monitoring).2 = [] ∧
    (((ResourceMonitor.init i).runLoop g ticks).stop_monitoring).1.monitoring = false := by
  simp [ResourceMonitor.init, ResourceMonitor.runLoop,
    ResourceMonitor.stop_monitoring]

/-- C9 counterexample: at a tick where the memory collaborator reports
2^30 bytes (1 GiB) used, the snapshot records the value 1 — gigabytes, not
bytes (and the field is named `memory_used_gb`; no `memory_used_bytes`
field exists in a data point). -/
theorem memory_recorded_in_gb_not_bytes :
    (monitorTick false 0 0 memA (.error "e")).memory_used_gb = 1 ∧
    (1 : ℚ) ≠ 1024 ^ 3 := by
  constructor
  · show (1024 : ℚ) ^ 3 / 1024 ^ 3 = 1
    norm_num
  · norm_num

/-- C9 amended: every snapshot records memory used and memory available in
gigabytes — the byte counts divided by 1024^3 — under the fields
`memory_used_gb` and `memory_available_gb`, and the derived summary
reports max/avg memory in gigabytes (`max_memory_gb`, `avg_memory_gb`):
for a one-snapshot timeline both equal the snapshot's gigabyte value. -/
theorem memory_fields_in_gigabytes (g : Bool) (ts c : ℚ) (mem : MemStats)
    (q : Except String (List GPUStats)) :
    (monitorTick g ts c mem q).memory_used_gb = mem.used / 1024 ^ 3 ∧
    (monitorTick g ts c mem q).memory_available_gb = mem.available / 1024 ^ 3 ∧
    ∃ a, analyze g [monitorTick g ts c mem q] = some a ∧
      a.max_memory_gb = some (mem.used / 1024 ^ 3) ∧
      a.avg_memory_gb = some (mem.used / 1024 ^ 3) := by
  have hfields :
      (monitorTick g ts c mem q).memory_used_gb = mem.used / 1024 ^ 3 ∧
      (monitorTick g ts c mem q).memory_available_gb = mem.available / 1024 ^ 3 := by
    unfold monitorTick
    cases g with
    | false => exact ⟨rfl, rfl⟩
    | true => cases q <;> exact ⟨rfl, rfl⟩
  obtain ⟨a, ha, -, -, hmax, havg⟩ :=
    analyze_nonempty g (monitorTick g ts c mem q) []
  refine ⟨hfields.1, hfields.2, a, ha, ?_, ?_⟩
  · rw [hmax]; simp [pymax, hfields.1]
  · rw [havg]; simp [pyavg, hfields.1]

/-- C2: when the launch of the child process raises (executable not found,
permission denied, ...), `run_with_monitoring` still returns a result —
with `success = false`, the sentinel return code `-1`, empty stdout and
the exception text as stderr — instead of propagating the fault. -/
theorem launch_failure_yields_failed_result (g : Bool) (mi st et : ℚ)
    (e : String) (ticks : List TickInput) :
    ∃ r, run_with_monitoring g mi (.error e) st et ticks = some r ∧
      r.success = false ∧ r.return_code = -1 ∧ r.stdout = "" ∧
      r.stderr = e := by
  obtain ⟨a, ha⟩ := Option.isSome_iff_exists.mp
    (analyze_isSome g (runTimeline g ticks))
  exact ⟨_, run_with_monitoring_eq g mi (.error e) st et ticks a ha,
    rfl, rfl, rfl, rfl⟩

/-- C3: every run produces a result (the reduction never divides by zero),
and its analysis dict is empty exactly when its timeline is empty. -/
theorem summary_empty_iff_timeline_empty (g : Bool) (mi st et : ℚ)
    (launch : Except String ProcResult) (ticks : List TickInput) :
    ∃ r, run_with_monitoring g mi launch st et ticks = some r ∧
      (r.resource_analysis = Analysis.empty ↔ r.resource_timeline = []) := by
  cases hT : runTimeline g ticks with
  | nil =>
    refine ⟨_, run_with_monitoring_eq g mi launch st et ticks Analysis.empty
      (by rw [hT]; rfl), ?_⟩
    simp [hT]
  | cons d tl =>
    obtain ⟨a, ha, hmc, -, -, -⟩ := analyze_nonempty g d tl
    refine ⟨_, run_with_monitoring_eq g mi launch st et ticks a
      (by rw [hT]; exact ha), ?_⟩
    dsimp only
    constructor
    · intro hA
      rw [hA] at hmc
      simp [Analysis.empty, pymax] at hmc
    · intro hTl
      rw [hT] at hTl
      exact absurd hTl (List.cons_ne_nil d tl)

/-- C4: on a non-empty timeline the reduction's `max_cpu_percent` is a CPU
value attained in the timeline and an upper bound of all of them, its
`avg_cpu_percent` is exactly the sum of the CPU values divided by the
number of snapshots, and likewise for the per-snapshot memory-used
values. -/
theorem reduction_max_avg_exact (g : Bool) (d : DataPoint)
    (tl : List DataPoint) :
    ∃ a, analyze g (d :: tl) = some a ∧
      (∃ m, a.max_cpu_percent = some m ∧
        m ∈ (d :: tl).map (fun x => x.cpu_percent) ∧
        ∀ c ∈ (d :: tl).map (fun x => x.cpu_percent), c ≤ m) ∧
      a.avg_cpu_percent
        = some (((d :: tl).map (fun x => x.cpu_percent)).sum
            / ((d :: tl).length : ℚ)) ∧
      (∃ m, a.max_memory_gb = some m ∧
        m ∈ (d :: tl).map (fun x => x.memory_used_gb) ∧
        ∀ c ∈ (d :: tl).map (fun x => x.memory_used_gb), c ≤ m) ∧
      a.avg_memory_gb
        = some (((d :: tl).map (fun x => x.memory_used_gb)).sum
            / ((d :: tl).length : ℚ)) := by
  obtain ⟨a, ha, hmc, hac, hmm, ham⟩ := analyze_nonempty g d tl
  refine ⟨a, ha, ?_, ?_, ?_, ?_⟩
  · refine ⟨(tl.map fun x => x.cpu_percent).foldl max d.cpu_percent,
      ?_, ?_, ?_⟩
    · rw [hmc]; simp [pymax]
    · simpa using foldl_max_mem d.cpu_percent (tl.map fun x => x.cpu_percent)
    · intro c hc
      exact le_foldl_max d.cpu_percent (tl.map fun x => x.cpu_percent) c
        (by simpa using hc)
  · rw [hac]
    simp [pyavg]
  · refine ⟨(tl.map fun x => x.memory_used_gb).foldl max d.memory_used_gb,
      ?_, ?_, ?_⟩
    · rw [hmm]; simp [pymax]
    · simpa using foldl_max_mem d.memory_used_gb
        (tl.map fun x => x.memory_used_gb)
    · intro c hc
      exact le_foldl_max d.memory_used_gb (tl.map fun x => x.memory_used_gb)
        c (by simpa using hc)
  · rw [ham]
    simp [pyavg]

/-- C6: when the GPU collaborator failed to load, no snapshot of any run
carries a `gpus` field and the run's analysis has none of the four GPU
aggregate fields. -/
theorem gpu_absent_no_gpu_fields (mi st et : ℚ)
    (launch : Except String ProcResult) (ticks : List TickInput) :
    ∃ r, run_with_monitoring false mi launch st et ticks = some r ∧
      (∀ d ∈ r.resource_timeline, d.gpus = none) ∧
      r.resource_analysis.max_gpu_memory_mb = none ∧
      r.resource_analysis.avg_gpu_memory_mb = none ∧
      r.resource_analysis.max_gpu_utilization = none ∧
      r.resource_analysis.avg_gpu_utilization = none := by
  obtain ⟨a, ha, h1, h2, h3, h4⟩ :=
    analyze_false_gpu_none (runTimeline false ticks)
  refine ⟨_, run_with_monitoring_eq false mi launch st et ticks a ha,
    ?_, h1, h2, h3, h4⟩
  intro d hd
  obtain ⟨t, -, ht⟩ := List.mem_map.mp hd
  rw [show d = monitorTick false t.timestamp t.cpu t.mem t.gpuQuery
    from ht.symm]
  rfl

/-- C7: a tick whose GPU query raises still appends a snapshot — carrying
the exception text in `gpu_error` and no `gpus` field — and the loop goes
on to sample every later tick. -/
theorem gpu_error_tick_still_snapshots (m : ResourceMonitor)
    (pre post : List TickInput) (t : TickInput) (e : String)
    (hm : m.monitoring = true) (ht : t.gpuQuery = .error e) :
    (m.runLoop true (pre ++ t :: post)).data
      = m.data
        ++ pre.map (fun i => monitorTick true i.timestamp i.cpu i.mem i.gpuQuery)
        ++ monitorTick true t.timestamp t.cpu t.mem (.error e)
          :: post.map (fun i => monitorTick true i.timestamp i.cpu i.mem i.gpuQuery) ∧
    (monitorTick true t.timestamp t.cpu t.mem (.error e)).gpus = none ∧
    (monitorTick true t.timestamp t.cpu t.mem (.error e)).gpu_error = some e := by
  refine ⟨?_, rfl, rfl⟩
  simp [ResourceMonitor.runLoop, hm, ht, List.map_append]

/-- C7 witness: a monitor started with interval 1, one failing tick
(`tickA`, GPU error "nvml") followed by a healthy tick, concretely. -/
theorem gpu_error_tick_still_snapshots_witness :
    ((ResourceMonitor.init 1).start_monitoring.monitoring = true) ∧
    (tickA.gpuQuery = .error "nvml") ∧
    (((ResourceMonitor.init 1).start_monitoring.runLoop true
        ([] ++ tickA :: [tickB])).data
      = ((ResourceMonitor.init 1).start_monitoring).data
        ++ ([] : List TickInput).map
          (fun i => monitorTick true i.timestamp i.cpu i.mem i.gpuQuery)
        ++ monitorTick true tickA.timestamp tickA.cpu tickA.mem (.error "nvml")
          :: [tickB].map
            (fun i => monitorTick true i.timestamp i.cpu i.mem i.gpuQuery) ∧
      (monitorTick true tickA.timestamp tickA.cpu tickA.mem
        (.error "nvml")).gpus = none ∧
      (monitorTick true tickA.timestamp tickA.cpu tickA.mem
        (.error "nvml")).gpu_error = some "nvml") :=
  ⟨rfl, rfl, gpu_error_tick_still_snapshots
    ((ResourceMonitor.init 1).start_monitoring) [] [tickB] tickA "nvml"
    rfl rfl⟩

theorem gatherGpu_all_empty (f : GPUData → ℚ) (rd : List DataPoint)
    (h : ∀ d ∈ rd, d.gpus = some []) : gatherGpu f rd = [] := by
  induction rd with
  | nil => rfl
  | cons d tl ih =>
    rw [gatherGpu_cons, h d (List.mem_cons_self _ _),
      ih (fun x hx => h x (List.mem_cons_of_mem _ hx))]
    rfl

/-- C10: when every snapshot carries a GPU list that is empty (GPU support
loaded, zero devices seen), the reduction succeeds and produces none of
the four GPU aggregate fields — it never maxes an empty sequence nor
divides by zero. -/
theorem empty_gpu_lists_no_gpu_aggregates (rd : List DataPoint)
    (h : ∀ d ∈ rd, d.gpus = some []) :
    ∃ a, analyze true rd = some a ∧
      a.max_gpu_memory_mb = none ∧ a.avg_gpu_memory_mb = none ∧
      a.max_gpu_utilization = none ∧ a.avg_gpu_utilization = none := by
  cases rd with
  | nil => exact ⟨Analysis.empty, rfl, rfl, rfl, rfl, rfl⟩
  | cons d tl =>
    have hg : gatherGpu (fun x => x.memory_used_mb) (d :: tl) = [] :=
      gatherGpu_all_empty _ _ h
    unfold analyze
    simp only [List.map_cons, pymax, pyavg, Option.some_bind, hg]
    split
    · exact ⟨_, rfl, rfl, rfl, rfl, rfl⟩
    · exact ⟨_, rfl, rfl, rfl, rfl, rfl⟩

/-- C10 witness: one concrete snapshot carrying an empty GPU list. -/
theorem empty_gpu_lists_no_gpu_aggregates_witness :
    (∀ d ∈ [dpGpuEmpty], d.gpus = some []) ∧
    ∃ a, analyze true [dpGpuEmpty] = some a ∧
      a.max_gpu_memory_mb = none ∧ a.avg_gpu_memory_mb = none ∧
      a.max_gpu_utilization = none ∧ a.avg_gpu_utilization = none :=
  ⟨by decide, empty_gpu_lists_no_gpu_aggregates [dpGpuEmpty] (by decide)⟩
